import Mathlib

/-!
Verification of the connect-hire job-board core: the application ledger,
its row-level authorization rules, and the two outbound-email handlers.

The data model is embedded from the SQL migrations
(`user_roles`, `jobs`, `job_applications` tables and their RLS policies),
and the operations from the client mutation code
(`handleApply`, `JobApplicationForm.handleSubmit`, `updateApplicationStatus`,
`handleSendToBoss`) and the two serverless handlers in
`supabase/functions/send-applicant-email/index.ts`.

Identifiers (UUIDs in the source) are modelled as `Nat`; status values
(`TEXT` in the source) as `String`.  Row-level security is modelled as a
guard on each mutating operation: a write a policy denies returns
`Forbidden` and leaves the state unchanged; a violated `UNIQUE`
constraint returns `Conflict` (error code 23505 in the source); a
violated foreign key returns `NotFound`.
-/

namespace ConnectHire

/-- Row of `user_roles`: `user_id UUID NOT NULL, role user_role NOT NULL, UNIQUE (user_id)`. -/
structure UserRoleRow where
  user_id : Nat
  role : String
deriving DecidableEq, Repr

/-- Row of `jobs` after the alter in the second migration:
`title`, owning `user_id` (added `ADD COLUMN user_id UUID`), and
`is_active BOOLEAN DEFAULT true`. -/
structure JobRow where
  id : Nat
  title : String
  user_id : Nat
  is_active : Bool
deriving DecidableEq, Repr

/-- Row of `job_applications`:
`job_id`, applicant `user_id`, `status TEXT DEFAULT 'pending'`,
plus the applicant-detail columns added by the second migration. -/
structure JobApplicationRow where
  id : Nat
  job_id : Nat
  user_id : Nat
  status : String
  applicant_name : Option String
  applicant_email : Option String
  age : Option Nat
  experience_years : Option Nat
  resume_url : Option String
deriving DecidableEq, Repr

/-- The database state: the three tables the modelled operations touch. -/
structure DBState where
  user_roles : List UserRoleRow
  jobs : List JobRow
  job_applications : List JobApplicationRow
deriving DecidableEq, Repr

/-- Error taxonomy: `Forbidden` models an RLS policy denial, `Conflict` a
unique-constraint violation (Postgres error code 23505), `NotFound` a
missing referenced row, `ValidationError` the fail-fast check in the
bulk handler, `UpstreamError` an email-provider failure. -/
inductive DbError where
  | Forbidden
  | Conflict
  | NotFound
  | ValidationError
  | UpstreamError
deriving DecidableEq, Repr

/-- The `public.is_job_owner(_user_id, _job_id)` SQL function:
true iff a `jobs` row exists with `id = _job_id AND user_id = _user_id`. -/
def is_job_owner (s : DBState) (uid jid : Nat) : Bool :=
  s.jobs.any (fun j => j.id == jid && j.user_id == uid)

/-- RLS SELECT policy "Anyone can view active jobs": `USING (is_active = true)`.
The policy does not mention the requesting identity, so the readable set
is the same for every caller, owner included. -/
def visibleJobs (s : DBState) : List JobRow :=
  s.jobs.filter (fun j => j.is_active)

/-- `fetchEmployerJobs`: the client queries `jobs` with `.eq('user_id', user.id)`;
the rows it can see are first cut down by the SELECT policy. -/
def fetchEmployerJobs (uid : Nat) (s : DBState) : List JobRow :=
  (visibleJobs s).filter (fun j => j.user_id == uid)

/-- Column set a caller may supply when inserting into `job_applications`.
`none` means the column is omitted so its SQL default applies
(`status` defaults to `'pending'`).  `handleApply` supplies only
`job_id` and `user_id`; `JobApplicationForm.handleSubmit` also supplies
the applicant-detail columns.  Neither supplies `status`, but the schema
does not stop a caller from doing so. -/
structure ApplicationInsert where
  job_id : Nat
  user_id : Nat
  applicant_name : Option String := none
  applicant_email : Option String := none
  age : Option Nat := none
  experience_years : Option Nat := none
  resume_url : Option String := none
  status : Option String := none
deriving DecidableEq, Repr

/-- The insert payload of `JobSeekerDashboard.handleApply`:
`insert(\x7b job_id: jobId, user_id: user.id \x7d)` - no status column. -/
def handleApplyInsert (jobId uid : Nat) : ApplicationInsert :=
  { job_id := jobId, user_id := uid }

/-- The insert payload of `JobApplicationForm.handleSubmit`: job, applicant
and the applicant-detail columns - again no status column. -/
def jobApplicationFormInsert (jobId uid : Nat) (fullName email : String)
    (age expYears : Nat) (resumeUrl : String) : ApplicationInsert :=
  { job_id := jobId, user_id := uid,
    applicant_name := some fullName, applicant_email := some email,
    age := some age, experience_years := some expYears,
    resume_url := some resumeUrl }

/-- INSERT into `job_applications`.
Guards, in order: RLS policy "Users can create their own applications"
(`WITH CHECK (auth.uid() = user_id)`), the `UNIQUE (job_id, user_id)`
constraint, and the foreign key to `jobs`.  On success the new row is
prepended; `status` takes the supplied value or the column default
`'pending'`. -/
def createApplication (actor : Nat) (p : ApplicationInsert) (newId : Nat)
    (s : DBState) : Except DbError DBState :=
  if p.user_id ≠ actor then .error .Forbidden
  else if s.job_applications.any
      (fun a => a.job_id == p.job_id && a.user_id == p.user_id) then
    .error .Conflict
  else if ¬ s.jobs.any (fun j => j.id == p.job_id) then .error .NotFound
  else .ok { s with job_applications :=
    { id := newId, job_id := p.job_id, user_id := p.user_id,
      status := p.status.getD "pending",
      applicant_name := p.applicant_name,
      applicant_email := p.applicant_email,
      age := p.age, experience_years := p.experience_years,
      resume_url := p.resume_url } :: s.job_applications }

/-- The row-rewrite performed by `update(\x7b status \x7d).eq('id', applicationId)`:
the matching row gets the new status, every other row is untouched. -/
def setStatusById (applicationId : Nat) (status : String)
    (l : List JobApplicationRow) : List JobApplicationRow :=
  l.map (fun r => if r.id == applicationId then { r with status := status } else r)

/-- `updateApplicationStatus` (ViewApplicants) as gated by the RLS policy
"Employers can update applications for their jobs"
(`USING/WITH CHECK is_job_owner(auth.uid(), job_id)`): the write goes
through only when the actor owns the job the application references. -/
def updateApplicationStatus (actor applicationId : Nat) (status : String)
    (s : DBState) : Except DbError DBState :=
  match s.job_applications.find? (fun a => a.id == applicationId) with
  | none => .error .NotFound
  | some a =>
    if is_job_owner s actor a.job_id then
      .ok { s with job_applications := setStatusById applicationId status s.job_applications }
    else .error .Forbidden

/-- The state an `updateApplicationStatus` call leaves behind: the new
state on success, the old state unchanged on any error. -/
def execUpdateStatus (actor applicationId : Nat) (status : String)
    (s : DBState) : DBState :=
  match updateApplicationStatus actor applicationId status s with
  | .ok s2 => s2
  | .error _ => s

/-- INSERT into `user_roles`.
Guards: RLS policy "Users can insert their own role"
(`WITH CHECK (auth.uid() = user_id)`) and the `UNIQUE (user_id)`
constraint.  The table has no UPDATE policy, so no modelled operation
rewrites an existing role row. -/
def setRole (actor uid : Nat) (role : String) (s : DBState) :
    Except DbError DBState :=
  if uid ≠ actor then .error .Forbidden
  else if s.user_roles.any (fun r => r.user_id == uid) then .error .Conflict
  else .ok { s with user_roles := { user_id := uid, role := role } :: s.user_roles }

/-- The role recorded for a user, if any. -/
def roleOf (s : DBState) (uid : Nat) : Option String :=
  (s.user_roles.find? (fun r => r.user_id == uid)).map (fun r => r.role)

/-- Request body of the single-applicant `send-applicant-email` handler. -/
structure EmailRequest where
  applicationId : Nat
  applicantName : String
  applicantEmail : String
  jobTitle : String
  status : String
  companyName : String
deriving DecidableEq, Repr

/-- Outcome of the one `resend.emails.send` call a handler awaits: the
provider either accepts the message (yielding a receipt) or the await
throws.  The provider is an external collaborator, so the outcome is a
parameter of the handler model. -/
inductive SendOutcome where
  | sent (receipt : Nat)
  | failed (msg : String)
deriving DecidableEq, Repr

/-- The status write the handler performs after a successful send: it
runs with the service role key, so no RLS policy applies; the row is
matched by `eq("id", applicationId)` alone. -/
def serviceRoleUpdateStatus (applicationId : Nat) (status : String)
    (s : DBState) : DBState :=
  { s with job_applications := setStatusById applicationId status s.job_applications }

/-- The `send-applicant-email` handler body: the send is awaited first;
only when it does not throw does control reach the database update, and
any thrown error is caught and returned as an HTTP 500 with the state
untouched.  Result is (HTTP status, database state). -/
def sendApplicantEmailHandler (req : EmailRequest) (send : SendOutcome)
    (s : DBState) : Nat × DBState :=
  match send with
  | .failed _ => (500, s)
  | .sent _ => (200, serviceRoleUpdateStatus req.applicationId req.status s)

/-- Applicant record in the `send-to-boss` request body. -/
structure BossApplicant where
  name : String
  age : Option Nat
  experienceYears : Option Nat
  resumeUrl : Option String
deriving DecidableEq, Repr

/-- Request body of the `send-to-boss` handler. -/
structure SendToBossRequest where
  bossEmail : String
  jobTitle : String
  companyName : String
  optionalMessage : Option String
  shortlistedApplicants : List BossApplicant
deriving DecidableEq, Repr

/-- Result of a `send-to-boss` invocation: the fail-fast validation throw,
a provider failure after the send was attempted, or a successful send. -/
inductive BossResult where
  | validationError (msg : String)
  | upstreamFailure (msg : String)
  | sentToBoss (receipt : Nat)
deriving DecidableEq, Repr

/-- Number of provider send attempts a `send-to-boss` invocation made:
zero on the validation throw (it precedes the send), one otherwise. -/
def sendAttempts : BossResult → Nat
  | .validationError _ => 0
  | .upstreamFailure _ => 1
  | .sentToBoss _ => 1

/-- The `send-to-boss` handler body: `if (!bossEmail || !jobTitle ||
!shortlistedApplicants.length) throw ...` runs before the single
`resend.emails.send` call. -/
def sendToBossHandler (req : SendToBossRequest) (send : SendOutcome) : BossResult :=
  if req.bossEmail = "" ∨ req.jobTitle = "" ∨ req.shortlistedApplicants = [] then
    .validationError "Missing required fields: bossEmail, jobTitle, or shortlistedApplicants"
  else
    match send with
    | .failed m => .upstreamFailure m
    | .sent r => .sentToBoss r

/-- Client-side applicant record (ViewApplicants), as fetched from
`job_applications`; `status` is nullable in the source. -/
structure Applicant where
  id : Nat
  applicant_name : Option String
  applicant_email : Option String
  age : Option Nat
  experience_years : Option Nat
  resume_url : Option String
  status : Option String
deriving DecidableEq, Repr

/-- `shortlistedApplicants` memo: `filteredApplicants.filter(a =>
a.status === 'shortlisted')`. -/
def shortlistedApplicants (filteredApplicants : List Applicant) : List Applicant :=
  filteredApplicants.filter (fun a => a.status == some "shortlisted")

/-- The applicant list `handleSendToBoss` forwards:
`shortlistedApplicants.length > 0 ? shortlistedApplicants : filteredApplicants`. -/
def applicantsToSend (filteredApplicants : List Applicant) : List Applicant :=
  if (shortlistedApplicants filteredApplicants).length > 0 then
    shortlistedApplicants filteredApplicants
  else filteredApplicants

/-- The `.trim()` the client applies to the boss email field: strip
leading and trailing whitespace (embedded as an executable
character-list computation so concrete inputs evaluate). -/
def trimString (s : String) : String :=
  String.mk
    (((s.toList.dropWhile Char.isWhitespace).reverse.dropWhile
        Char.isWhitespace).reverse)

/-- Result of the client-side `handleSendToBoss` guard logic: either one
of its early-return toasts, or an invocation of the `send-to-boss`
function carrying the chosen applicant list. -/
inductive SendToBossClientResult where
  | clientError (msg : String)
  | invoked (bossEmail : String) (toSend : List Applicant)
deriving DecidableEq, Repr

/-- `handleSendToBoss` up to the function invocation: requires a
non-blank boss email and a selected job, picks `applicantsToSend`, and
bails out if that list is empty; otherwise invokes `send-to-boss` with
the trimmed email and the chosen list. -/
def handleSendToBoss (bossEmail : String) (selectedJobTitle : Option String)
    (filteredApplicants : List Applicant) : SendToBossClientResult :=
  if trimString bossEmail = "" then .clientError "Boss email is required"
  else
    match selectedJobTitle with
    | none => .clientError "Please select a job first"
    | some _ =>
      if applicantsToSend filteredApplicants = [] then
        .clientError "No applicants to send"
      else .invoked (trimString bossEmail) (applicantsToSend filteredApplicants)

/-- The mutating operation surface modelled from the repository: role
insert, application insert, RLS-gated status update, and the
send-applicant-email handler (whose success path writes status with the
service role). -/
inductive Op where
  | opSetRole (actor uid : Nat) (role : String)
  | opCreateApplication (actor : Nat) (p : ApplicationInsert) (newId : Nat)
  | opUpdateStatus (actor applicationId : Nat) (status : String)
  | opSendApplicantEmail (req : EmailRequest) (send : SendOutcome)
deriving DecidableEq, Repr

/-- Run one modelled operation against the database state. -/
def runOp : Op → DBState → Except DbError DBState
  | .opSetRole actor uid role, s => setRole actor uid role s
  | .opCreateApplication actor p newId, s => createApplication actor p newId s
  | .opUpdateStatus actor applicationId status, s =>
      updateApplicationStatus actor applicationId status s
  | .opSendApplicantEmail req send, s =>
      match sendApplicantEmailHandler req send s with
      | (200, s2) => .ok s2
      | (_, _) => .error .UpstreamError

/-- Number of `job_applications` rows carrying a given (job, applicant) pair. -/
def countPair (s : DBState) (jid uid : Nat) : Nat :=
  (s.job_applications.filter (fun a => a.job_id == jid && a.user_id == uid)).length

/-- The `UNIQUE (job_id, user_id)` constraint as a state invariant: no two
rows of `job_applications` share a (job, applicant) pair. -/
def UniquePairs (s : DBState) : Prop :=
  s.job_applications.Pairwise (fun a b => ¬ (a.job_id = b.job_id ∧ a.user_id = b.user_id))

/-- Build a `job_applications` row with the detail columns left NULL. -/
def mkAppRow (i jid uid : Nat) (st : String) : JobApplicationRow :=
  { id := i, job_id := jid, user_id := uid, status := st,
    applicant_name := none, applicant_email := none, age := none,
    experience_years := none, resume_url := none }

/-- Build a `jobs` row. -/
def mkJob (i : Nat) (t : String) (uid : Nat) (act : Bool) : JobRow :=
  { id := i, title := t, user_id := uid, is_active := act }

/-- State with employer 5 owning job 1 and no applications yet. -/
def exC1S0 : DBState :=
  { user_roles := [{ user_id := 5, role := "employer" }],
    jobs := [mkJob 1 "Senior Software Engineer" 5 true],
    job_applications := [] }

/-- State after user 5 applies to their own job 1. -/
def exC1S1 : DBState :=
  { exC1S0 with job_applications := [mkAppRow 10 1 5 "pending"] }

/-- State after applicant 5 then updates their own application's status. -/
def exC1S2 : DBState :=
  { exC1S0 with job_applications := [mkAppRow 10 1 5 "selected"] }

/-- State with employer 5 owning job 1 and an application by user 6. -/
def exC1W : DBState :=
  { user_roles := [{ user_id := 5, role := "employer" },
                   { user_id := 6, role := "job_seeker" }],
    jobs := [mkJob 1 "Frontend Developer" 5 true],
    job_applications := [mkAppRow 10 1 6 "pending"] }

/-- The application row of `exC1W`. -/
def exC1WRow : JobApplicationRow := mkAppRow 10 1 6 "pending"

/-- State with an existing application by user 6 to job 1. -/
def exC2S : DBState :=
  { user_roles := [],
    jobs := [mkJob 1 "Frontend Developer" 5 true],
    job_applications := [mkAppRow 10 1 6 "pending"] }

/-- State with job 1 and no applications. -/
def exC3S0 : DBState :=
  { user_roles := [],
    jobs := [mkJob 1 "Data Analyst" 5 true],
    job_applications := [] }

/-- State after user 6 applies to job 1 through `handleApplyInsert`. -/
def exC3S1 : DBState :=
  { exC3S0 with job_applications := [mkAppRow 20 1 6 "pending"] }

/-- State for the C4 witness: job 1 with an application by user 6. -/
def exC4S : DBState :=
  { user_roles := [],
    jobs := [mkJob 1 "Registered Nurse" 7 true],
    job_applications := [mkAppRow 30 1 6 "pending"] }

/-- The application row of `exC4S`. -/
def exC4Row : JobApplicationRow := mkAppRow 30 1 6 "pending"

/-- Single-applicant email request targeting application 30. -/
def exC4Req : EmailRequest :=
  { applicationId := 30, applicantName := "A", applicantEmail := "a@example.com",
    jobTitle := "Registered Nurse", status := "shortlisted",
    companyName := "HealthFirst Medical" }

/-- State whose only job is owned by employer 7 but inactive. -/
def exC5S : DBState :=
  { user_roles := [{ user_id := 7, role := "employer" }],
    jobs := [mkJob 3 "Registered Nurse" 7 false],
    job_applications := [] }

/-- An active job owned by employer 7. -/
def exC5WJob : JobRow := mkJob 4 "Financial Analyst" 7 true

/-- State whose only job is `exC5WJob`. -/
def exC5W : DBState :=
  { user_roles := [{ user_id := 7, role := "employer" }],
    jobs := [exC5WJob],
    job_applications := [] }

/-- The application row of `exC6S`: currently rejected. -/
def exC6Row : JobApplicationRow := mkAppRow 10 1 6 "rejected"

/-- State with employer 5 owning job 1 and a rejected application by user 6. -/
def exC6S : DBState :=
  { user_roles := [{ user_id := 5, role := "employer" }],
    jobs := [mkJob 1 "Financial Analyst" 5 true],
    job_applications := [exC6Row] }

/-- Bulk request with a recipient but an empty applicant list. -/
def exC7Req : SendToBossRequest :=
  { bossEmail := "boss@example.com", jobTitle := "Course Developer",
    companyName := "EduTech Academy", optionalMessage := none,
    shortlistedApplicants := [] }

/-- State where user 2 already holds the employer role. -/
def exC8S : DBState :=
  { user_roles := [{ user_id := 2, role := "employer" }], jobs := [],
    job_applications := [] }

/-- State after user 3 registers the job_seeker role on top of `exC8S`. -/
def exC8S2 : DBState :=
  { user_roles := [{ user_id := 3, role := "job_seeker" },
                   { user_id := 2, role := "employer" }],
    jobs := [], job_applications := [] }

/-- Build a client-side applicant record with a given status. -/
def mkApplicant (i : Nat) (st : Option String) : Applicant :=
  { id := i, applicant_name := none, applicant_email := none, age := none,
    experience_years := none, resume_url := none, status := st }

/-- Filtered list with no shortlisted member. -/
def exC10A : List Applicant :=
  [mkApplicant 1 (some "pending"), mkApplicant 2 (some "rejected"), mkApplicant 3 none]

/-- Filtered list with exactly one shortlisted member. -/
def exC10B : List Applicant :=
  [mkApplicant 1 (some "pending"), mkApplicant 2 (some "shortlisted")]

/-- Searching a mapped list: when the map does not disturb the search
predicate, the found element is the image of the originally found one. -/
theorem find?_map_pres {α : Type} (g : α → α) (q : α → Bool)
    (hq : ∀ x, q (g x) = q x) :
    ∀ (l : List α) (a : α), l.find? q = some a → (l.map g).find? q = some (g a) := by
  intro l
  induction l with
  | nil => intro a h; simp at h
  | cons x xs ih =>
    intro a h
    rw [List.find?_cons] at h
    rw [List.map_cons, List.find?_cons, hq x]
    cases hqx : q x with
    | true =>
      rw [hqx] at h
      simp at h
      subst h
      rfl
    | false =>
      rw [hqx] at h
      exact ih a h

/-- Mapping twice with a pointwise-idempotent function equals mapping once. -/
theorem map_idem {α : Type} (g : α → α) (hg : ∀ x, g (g x) = g x) (l : List α) :
    (l.map g).map g = l.map g := by
  induction l with
  | nil => rfl
  | cons x xs ih =>
    simp only [List.map_cons]
    rw [hg x, ih]

/-- Finding the updated row: if a row with the given id is found, then after
`setStatusById` the same search finds that row with its status replaced. -/
theorem setStatusById_find? (i : Nat) (st : String) (l : List JobApplicationRow)
    (a : JobApplicationRow) (h : l.find? (fun r => r.id == i) = some a) :
    (setStatusById i st l).find? (fun r => r.id == i) =
      some { a with status := st } := by
  have hg : ∀ x : JobApplicationRow,
      ((if (x.id == i) = true then { x with status := st } else x).id == i) =
        (x.id == i) := by
    intro x
    by_cases hx : (x.id == i) = true
    · rw [if_pos hx]
    · rw [if_neg hx]
  have hq := List.find?_some h
  have hmain := find?_map_pres
      (fun r => if r.id == i then { r with status := st } else r)
      (fun r => r.id == i) hg l a h
  simpa only [setStatusById, if_pos hq] using hmain

/-- Rewriting a status twice with the same value is the same as once. -/
theorem setStatusById_idem (i : Nat) (st : String) (l : List JobApplicationRow) :
    setStatusById i st (setStatusById i st l) = setStatusById i st l := by
  have hg : ∀ x : JobApplicationRow,
      (fun r => if r.id == i then { r with status := st } else r)
        ((fun r => if r.id == i then { r with status := st } else r) x) =
      (fun r => if r.id == i then { r with status := st } else r) x := by
    intro x
    by_cases hx : (x.id == i) = true
    · have hx2 : ((({ x with status := st } : JobApplicationRow)).id == i) = true := hx
      simp only [if_pos hx, if_pos hx2]
    · simp only [if_neg hx]
  exact map_idem _ hg l

/-- Under the pairwise-uniqueness invariant, at most one row carries any
given (job, applicant) pair. -/
theorem pair_filter_length_le_one (jid uid : Nat) (l : List JobApplicationRow)
    (h : l.Pairwise (fun a b => ¬ (a.job_id = b.job_id ∧ a.user_id = b.user_id))) :
    (l.filter (fun a => a.job_id == jid && a.user_id == uid)).length ≤ 1 := by
  induction l with
  | nil => simp
  | cons x xs ih =>
    rcases List.pairwise_cons.mp h with ⟨hx, hxs⟩
    by_cases hp : (x.job_id == jid && x.user_id == uid) = true
    · have hj : x.job_id = jid ∧ x.user_id = uid := by simpa using hp
      have hnil : xs.filter (fun a => a.job_id == jid && a.user_id == uid) = [] := by
        rw [List.filter_eq_nil_iff]
        intro b hb hpb
        have hbj : b.job_id = jid ∧ b.user_id = uid := by simpa using hpb
        exact hx b hb ⟨hj.1.trans hbj.1.symm, hj.2.trans hbj.2.symm⟩
      simp [List.filter_cons, hp, hnil]
    · simp [List.filter_cons, hp]
      exact ih hxs

/-- Unfolding a successful `updateApplicationStatus`: the row was found,
the actor owns its job, and the new state is the status rewrite. -/
theorem updateApplicationStatus_ok (actor aid : Nat) (st : String) (s s2 : DBState)
    (h : updateApplicationStatus actor aid st s = Except.ok s2) :
    ∃ a, s.job_applications.find? (fun r => r.id == aid) = some a ∧
      is_job_owner s actor a.job_id = true ∧
      s2 = { s with job_applications := setStatusById aid st s.job_applications } := by
  rcases hf : s.job_applications.find? (fun r => r.id == aid) with _ | a
  · simp only [updateApplicationStatus, hf] at h
    exact absurd h (by simp)
  · simp only [updateApplicationStatus, hf] at h
    by_cases ho : is_job_owner s actor a.job_id = true
    · rw [if_pos ho] at h
      exact ⟨a, hf, ho, (Except.ok.inj h).symm⟩
    · rw [if_neg ho] at h
      exact absurd h (by simp)

/-- Unfolding a successful `createApplication`: the actor is the applicant,
no row with the pair existed, and the new row is prepended. -/
theorem createApplication_ok (actor : Nat) (p : ApplicationInsert) (newId : Nat)
    (s s2 : DBState) (h : createApplication actor p newId s = Except.ok s2) :
    actor = p.user_id ∧
    s.job_applications.any
      (fun a => a.job_id == p.job_id && a.user_id == p.user_id) = false ∧
    s2 = { s with job_applications :=
      { id := newId, job_id := p.job_id, user_id := p.user_id,
        status := p.status.getD "pending",
        applicant_name := p.applicant_name, applicant_email := p.applicant_email,
        age := p.age, experience_years := p.experience_years,
        resume_url := p.resume_url } :: s.job_applications } := by
  simp only [createApplication] at h
  by_cases h1 : p.user_id ≠ actor
  · rw [if_pos h1] at h
    exact Except.noConfusion h
  · rw [if_neg h1] at h
    by_cases h2 : (s.job_applications.any
        (fun a => a.job_id == p.job_id && a.user_id == p.user_id)) = true
    · rw [if_pos h2] at h
      exact Except.noConfusion h
    · rw [if_neg h2] at h
      by_cases h3 : (s.jobs.any (fun j => j.id == p.job_id)) = true
      · rw [if_neg (not_not_intro h3)] at h
        refine ⟨(not_ne_iff.mp h1).symm, ?_, (Except.ok.inj h).symm⟩
        simpa using h2
      · rw [if_pos h3] at h
        exact Except.noConfusion h

/-- A recorded role comes from a member row with that user id and role. -/
theorem roleOf_eq_some (s : DBState) (u : Nat) (r0 : String)
    (h : roleOf s u = some r0) :
    ∃ row, row ∈ s.user_roles ∧ row.user_id = u ∧ row.role = r0 := by
  simp only [roleOf, Option.map_eq_some'] at h
  rcases h with ⟨row, hfind, hrole⟩
  refine ⟨row, List.mem_of_find?_eq_some hfind, ?_, hrole⟩
  have hp := List.find?_some hfind
  simpa using hp

/-- No modelled operation changes a recorded role: the role tables of the
reachable states keep every existing (user, role) association. -/
theorem roleOf_runOp_preserved (op : Op) (s s2 : DBState)
    (h : runOp op s = Except.ok s2) (u : Nat) (r0 : String)
    (hr : roleOf s u = some r0) : roleOf s2 u = some r0 := by
  cases op with
  | opSetRole actor uid role =>
    simp only [runOp, setRole] at h
    by_cases h1 : uid ≠ actor
    · rw [if_pos h1] at h
      exact Except.noConfusion h
    · rw [if_neg h1] at h
      by_cases h2 : (s.user_roles.any (fun r => r.user_id == uid)) = true
      · rw [if_pos h2] at h
        exact Except.noConfusion h
      · rw [if_neg h2] at h
        have hs2 := (Except.ok.inj h).symm
        subst hs2
        rcases roleOf_eq_some s u r0 hr with ⟨row, hmem, huid, _⟩
        have hu : u ≠ uid := by
          intro he
          apply h2
          exact List.any_eq_true.mpr ⟨row, hmem, by simp [huid, he]⟩
        have hne : (({ user_id := uid, role := role } : UserRoleRow).user_id == u) = false := by
          simpa using (Ne.symm hu)
        simp only [roleOf, List.find?_cons]
        rw [hne]
        exact hr
  | opCreateApplication actor p newId =>
    have hc := createApplication_ok actor p newId s s2 (by simpa only [runOp] using h)
    rw [hc.2.2]
    exact hr
  | opUpdateStatus actor aid st =>
    have hc := updateApplicationStatus_ok actor aid st s s2 (by simpa only [runOp] using h)
    rcases hc with ⟨a, _, _, hs2⟩
    rw [hs2]
    exact hr
  | opSendApplicantEmail req send =>
    cases send with
    | failed m => simp [runOp, sendApplicantEmailHandler] at h
    | sent r =>
      simp only [runOp, sendApplicantEmailHandler] at h
      injection h with h
      rw [← h]
      exact hr

/-- C1 counterexample: the claim "the applicant themself may never update
status" fails.  User 5 owns job 1 and applies to it (the insert policy
checks only `auth.uid() = user_id`, so nothing stops a job owner from
applying to their own job); the update policy checks only
`is_job_owner(auth.uid(), job_id)`, so the applicant, user 5, then
successfully rewrites their own application's status to `selected`. -/
theorem C1_counterexample :
    createApplication 5 (handleApplyInsert 1 5) 10 exC1S0 = Except.ok exC1S1 ∧
    exC1S1.job_applications.map (fun a => (a.id, a.user_id, a.status)) =
      [(10, 5, "pending")] ∧
    updateApplicationStatus 5 10 "selected" exC1S1 = Except.ok exC1S2 ∧
    exC1S2.job_applications.map (fun a => (a.id, a.user_id, a.status)) =
      [(10, 5, "selected")] :=
  ⟨rfl, rfl, rfl, rfl⟩

/-- C1 (amended): for every user U and job J with `J.owner != U`, an
`updateStatus` request by U on any application referencing J is denied by
the RLS policy - it fails with `Forbidden` and the state is unchanged.
In particular the applicant cannot update status by virtue of being the
applicant; only job ownership grants the update (so a user who both
applied and owns the job can update, as `C1_counterexample` shows). -/
theorem C1_nonowner_update_forbidden (s : DBState) (u applicationId : Nat)
    (ns : String) (a : JobApplicationRow)
    (hFind : s.job_applications.find? (fun r => r.id == applicationId) = some a)
    (hNotOwner : ∀ j ∈ s.jobs, j.id = a.job_id → j.user_id ≠ u) :
    updateApplicationStatus u applicationId ns s = Except.error DbError.Forbidden ∧
    execUpdateStatus u applicationId ns s = s := by
  have hown : is_job_owner s u a.job_id = false := by
    rw [is_job_owner]
    rw [List.any_eq_false]
    intro j hj
    simp only [Bool.and_eq_true, beq_iff_eq, not_and]
    intro hid huid
    exact hNotOwner j hj hid huid
  have h1 : updateApplicationStatus u applicationId ns s =
      Except.error DbError.Forbidden := by
    simp only [updateApplicationStatus, hFind]
    rw [if_neg (by simp [hown])]
  exact ⟨h1, by simp only [execUpdateStatus, h1]⟩

/-- C1 witness: in `exC1W` employer 5 owns job 1 and user 6 applied;
the applicant, user 6, attempting to set their own status is denied and
the state is untouched. -/
theorem C1_witness :
    updateApplicationStatus 6 10 "selected" exC1W = Except.error DbError.Forbidden ∧
    execUpdateStatus 6 10 "selected" exC1W = exC1W :=
  C1_nonowner_update_forbidden exC1W 6 10 "selected" exC1WRow (by decide) (by decide)

/-- C2: under the `UNIQUE (job_id, user_id)` constraint (modelled as the
`UniquePairs` invariant), (1) every successful `createApplication`
preserves the invariant and leaves exactly one row with the inserted
pair, and (2) a second `createApplication` by the applicant with a pair
that already exists fails with `Conflict` - the distinguished duplicate
error, Postgres code 23505 - and the pair still has exactly one row. -/
theorem C2_duplicate_application_conflict (s : DBState) (actor : Nat)
    (p : ApplicationInsert) (newId : Nat) (hU : UniquePairs s) :
    (∀ s2, createApplication actor p newId s = Except.ok s2 →
      UniquePairs s2 ∧ countPair s2 p.job_id p.user_id = 1) ∧
    (actor = p.user_id → 1 ≤ countPair s p.job_id p.user_id →
      createApplication actor p newId s = Except.error DbError.Conflict ∧
      countPair s p.job_id p.user_id = 1) := by
  constructor
  · intro s2 h
    rcases createApplication_ok actor p newId s s2 h with ⟨_, hAny, hs2⟩
    have hnone : ∀ b ∈ s.job_applications,
        ¬ (b.job_id = p.job_id ∧ b.user_id = p.user_id) := by
      intro b hb hbp
      have hpb : (b.job_id == p.job_id && b.user_id == p.user_id) = true := by
        simp only [Bool.and_eq_true, beq_iff_eq]
        exact ⟨hbp.1, hbp.2⟩
      have hany2 : (s.job_applications.any
          (fun a => a.job_id == p.job_id && a.user_id == p.user_id)) = true :=
        List.any_eq_true.mpr ⟨b, hb, hpb⟩
      rw [hAny] at hany2
      exact Bool.false_ne_true hany2
    constructor
    · rw [hs2]
      unfold UniquePairs
      rw [List.pairwise_cons]
      exact ⟨fun b hb hbp => hnone b hb ⟨hbp.1.symm ▸ rfl, hbp.2.symm ▸ rfl⟩,
        hU⟩
    · rw [hs2]
      unfold countPair
      have hnil : s.job_applications.filter
          (fun a => a.job_id == p.job_id && a.user_id == p.user_id) = [] := by
        rw [List.filter_eq_nil_iff]
        intro b hb hbp
        exact hnone b hb (by simpa using hbp)
      simp [List.filter_cons, hnil]
  · intro hActor hGe
    have hex : ∃ b ∈ s.job_applications,
        (b.job_id == p.job_id && b.user_id == p.user_id) = true := by
      rcases List.exists_mem_of_ne_nil _
          (List.length_pos.mp (Nat.lt_of_lt_of_le Nat.zero_lt_one hGe))
        with ⟨b, hb⟩
      have hmf := List.mem_filter.mp hb
      exact ⟨b, hmf.1, hmf.2⟩
    have hAny : (s.job_applications.any
        (fun a => a.job_id == p.job_id && a.user_id == p.user_id)) = true :=
      List.any_eq_true.mpr hex
    constructor
    · simp only [createApplication]
      rw [if_neg (not_ne_iff.mpr hActor.symm), if_pos hAny]
    · exact Nat.le_antisymm (pair_filter_length_le_one p.job_id p.user_id
        s.job_applications hU) hGe

/-- C2 witness: user 6 already applied to job 1 in `exC2S`; re-applying
through the `handleApply` payload yields `Conflict` and the pair still
has exactly one row. -/
theorem C2_witness :
    createApplication 6 (handleApplyInsert 1 6) 11 exC2S = Except.error DbError.Conflict ∧
    countPair exC2S 1 6 = 1 :=
  (C2_duplicate_application_conflict exC2S 6 (handleApplyInsert 1 6) 11
    (by unfold UniquePairs; decide)).2 rfl (by decide)

/-- C3 counterexample: the claim "the caller cannot set an arbitrary
initial status" fails.  The schema's `DEFAULT 'pending'` only applies
when the `status` column is omitted, and the insert policy checks only
`auth.uid() = user_id`; a caller who supplies `status: 'hired'` in the
insert payload creates an application whose initial status is `hired`. -/
theorem C3_counterexample :
    (createApplication 6 { job_id := 1, user_id := 6, status := some "hired" }
        20 exC3S0).map (fun s2 => s2.job_applications.map (fun a => a.status)) =
      Except.ok ["hired"] :=
  rfl

/-- C3 (amended): a newly created application has status `pending`
whenever the caller omits the `status` column - as both in-repo creation
flows (`handleApplyInsert`, `jobApplicationFormInsert`) do - because the
column default applies; the schema does not prevent a caller from
supplying a different initial status. -/
theorem C3_default_status_pending (s : DBState) (actor : Nat)
    (p : ApplicationInsert) (newId : Nat) (hs : p.status = none) (s2 : DBState)
    (h : createApplication actor p newId s = Except.ok s2) :
    ∃ r, s2.job_applications = r :: s.job_applications ∧ r.status = "pending" ∧
      r.job_id = p.job_id ∧ r.user_id = p.user_id := by
  rcases createApplication_ok actor p newId s s2 h with ⟨_, _, hs2⟩
  refine ⟨_, by rw [hs2], ?_, rfl, rfl⟩
  simp [hs]

/-- C3 witness: user 6 applies to job 1 through the `handleApply` payload
(no status column); the created row has status `pending`. -/
theorem C3_witness :
    ∃ r, exC3S1.job_applications = r :: exC3S0.job_applications ∧
      r.status = "pending" ∧ r.job_id = 1 ∧ r.user_id = 6 :=
  C3_default_status_pending exC3S0 6 (handleApplyInsert 1 6) 20 rfl exC3S1 rfl

/-- C4: in the single-applicant send-then-update flow the status write is
conditional on the send: a failed send returns HTTP 500 with the state -
hence the application's status - unchanged, while a successful send
returns HTTP 200 with the application's status set to the requested one. -/
theorem C4_send_then_update (req : EmailRequest) (s : DBState) (msg : String)
    (receipt : Nat) (a : JobApplicationRow)
    (hFind : s.job_applications.find? (fun r => r.id == req.applicationId) = some a) :
    sendApplicantEmailHandler req (SendOutcome.failed msg) s = (500, s) ∧
    (sendApplicantEmailHandler req (SendOutcome.sent receipt) s).1 = 200 ∧
    ((sendApplicantEmailHandler req (SendOutcome.sent receipt) s).2.job_applications.find?
        (fun r => r.id == req.applicationId)) = some { a with status := req.status } := by
  refine ⟨rfl, rfl, ?_⟩
  exact setStatusById_find? req.applicationId req.status s.job_applications a hFind

/-- C4 witness: on `exC4S`, a failed send returns 500 and the exact same
state; a successful send returns 200 with application 30 shortlisted. -/
theorem C4_witness :
    sendApplicantEmailHandler exC4Req (SendOutcome.failed "provider error") exC4S =
      (500, exC4S) ∧
    (sendApplicantEmailHandler exC4Req (SendOutcome.sent 1) exC4S).1 = 200 ∧
    ((sendApplicantEmailHandler exC4Req (SendOutcome.sent 1) exC4S).2.job_applications.find?
        (fun r => r.id == 30)) = some { exC4Row with status := "shortlisted" } :=
  C4_send_then_update exC4Req exC4S "provider error" 1 exC4Row (by decide)

/-- C5 counterexample: the claim that a job is always visible to its
owning employer fails.  In `exC5S` employer 7 owns the single job, which
is inactive; the only SELECT policy on `jobs` is `is_active = true`, so
the readable set is empty for every caller and `fetchEmployerJobs`
returns nothing for the owner. -/
theorem C5_counterexample :
    exC5S.jobs.map (fun j => (j.id, j.user_id, j.is_active)) = [(3, 7, false)] ∧
    visibleJobs exC5S = [] ∧
    fetchEmployerJobs 7 exC5S = [] :=
  ⟨rfl, rfl, rfl⟩

/-- C5 (amended): a job is readable - by job seekers and by its owner
alike - exactly while its active flag is set; the RLS policies grant no
owner exception, and `fetchEmployerJobs` returns precisely the owner's
active jobs. -/
theorem C5_visibility_active_only (s : DBState) (uid : Nat) :
    (∀ j ∈ visibleJobs s, j.is_active = true) ∧
    (∀ j ∈ s.jobs, j.is_active = true → j ∈ visibleJobs s) ∧
    fetchEmployerJobs uid s =
      s.jobs.filter (fun j => j.is_active && j.user_id == uid) := by
  refine ⟨?_, ?_, ?_⟩
  · intro j hj
    exact (List.mem_filter.mp hj).2
  · intro j hj ha
    exact List.mem_filter.mpr ⟨hj, ha⟩
  · rw [fetchEmployerJobs, visibleJobs, List.filter_filter]
    apply List.filter_congr
    intro j hj
    exact Bool.and_comm (j.user_id == uid) j.is_active

/-- C5 witness: employer 7's active job is visible, and the owner's job
fetch is exactly the active-and-owned filter. -/
theorem C5_witness :
    exC5WJob ∈ visibleJobs exC5W ∧
    fetchEmployerJobs 7 exC5W =
      exC5W.jobs.filter (fun j => j.is_active && j.user_id == 7) :=
  ⟨(C5_visibility_active_only exC5W 7).2.1 exC5WJob (by decide) (by decide),
   (C5_visibility_active_only exC5W 7).2.2⟩

/-- C6: for the job owner `updateStatus` succeeds for every pair of old
and new statuses - the guard checks only ownership, never the current
status, so any state reaches any other state (identical ones included) -
and the result carries the requested status with jobs and roles untouched. -/
theorem C6_owner_any_transition (s : DBState) (u applicationId : Nat)
    (ns : String) (a : JobApplicationRow)
    (hFind : s.job_applications.find? (fun r => r.id == applicationId) = some a)
    (hOwner : is_job_owner s u a.job_id = true) :
    ∃ s2, updateApplicationStatus u applicationId ns s = Except.ok s2 ∧
      s2.job_applications.find? (fun r => r.id == applicationId) =
        some { a with status := ns } ∧
      s2.jobs = s.jobs ∧ s2.user_roles = s.user_roles := by
  refine ⟨{ s with job_applications :=
      setStatusById applicationId ns s.job_applications }, ?_, ?_, rfl, rfl⟩
  · simp only [updateApplicationStatus, hFind]
    rw [if_pos hOwner]
  · exact setStatusById_find? applicationId ns s.job_applications a hFind

/-- C6 witness: on `exC6S` (application 10 currently rejected, job owned
by employer 5) the owner's `rejected -> shortlisted` transition succeeds,
and so does the identical `rejected -> rejected` transition. -/
theorem C6_witness :
    (∃ s2, updateApplicationStatus 5 10 "shortlisted" exC6S = Except.ok s2 ∧
      s2.job_applications.find? (fun r => r.id == 10) =
        some { exC6Row with status := "shortlisted" } ∧
      s2.jobs = exC6S.jobs ∧ s2.user_roles = exC6S.user_roles) ∧
    (∃ s2, updateApplicationStatus 5 10 "rejected" exC6S = Except.ok s2 ∧
      s2.job_applications.find? (fun r => r.id == 10) =
        some { exC6Row with status := "rejected" } ∧
      s2.jobs = exC6S.jobs ∧ s2.user_roles = exC6S.user_roles) :=
  ⟨C6_owner_any_transition exC6S 5 10 "shortlisted" exC6Row (by decide) (by decide),
   C6_owner_any_transition exC6S 5 10 "rejected" exC6Row (by decide) (by decide)⟩

/-- C7: bulk notify with an empty applicant list or an empty recipient
email fails with the validation error and makes zero send attempts - the
check precedes the single provider call, so no partial send occurs. -/
theorem C7_bulk_validation_fail_fast (req : SendToBossRequest) (send : SendOutcome)
    (h : req.shortlistedApplicants = [] ∨ req.bossEmail = "") :
    sendToBossHandler req send = BossResult.validationError
      "Missing required fields: bossEmail, jobTitle, or shortlistedApplicants" ∧
    sendAttempts (sendToBossHandler req send) = 0 := by
  have hcond : req.bossEmail = "" ∨ req.jobTitle = "" ∨
      req.shortlistedApplicants = [] := by
    rcases h with h | h
    · exact Or.inr (Or.inr h)
    · exact Or.inl h
  have h1 : sendToBossHandler req send = BossResult.validationError
      "Missing required fields: bossEmail, jobTitle, or shortlistedApplicants" := by
    simp only [sendToBossHandler]
    rw [if_pos hcond]
  refine ⟨h1, ?_⟩
  rw [h1]
  rfl

/-- C7 witness: a request with a recipient but an empty applicant list
yields the validation error and zero send attempts, even when the
provider would have accepted the message. -/
theorem C7_witness :
    sendToBossHandler exC7Req (SendOutcome.sent 1) = BossResult.validationError
      "Missing required fields: bossEmail, jobTitle, or shortlistedApplicants" ∧
    sendAttempts (sendToBossHandler exC7Req (SendOutcome.sent 1)) = 0 :=
  C7_bulk_validation_fail_fast exC7Req (SendOutcome.sent 1) (Or.inl rfl)

/-- C8: a role is written at most once and only by the user for themself:
writing someone else's role is `Forbidden`, a `setRole` for a user whose
role is already set fails with `Conflict` (the `UNIQUE (user_id)`
violation), and no modelled operation changes an existing role. -/
theorem C8_role_write_once (s : DBState) :
    (∀ actor uid r, actor ≠ uid →
      setRole actor uid r s = Except.error DbError.Forbidden) ∧
    (∀ uid r0 r1, roleOf s uid = some r0 →
      setRole uid uid r1 s = Except.error DbError.Conflict) ∧
    (∀ op s2 u r0, runOp op s = Except.ok s2 → roleOf s u = some r0 →
      roleOf s2 u = some r0) := by
  refine ⟨?_, ?_, ?_⟩
  · intro actor uid r hne
    simp only [setRole]
    rw [if_pos (Ne.symm hne)]
  · intro uid r0 r1 hr
    rcases roleOf_eq_some s uid r0 hr with ⟨row, hmem, huid, _⟩
    have hAny : (s.user_roles.any (fun r => r.user_id == uid)) = true :=
      List.any_eq_true.mpr ⟨row, hmem, by simp [huid]⟩
    simp only [setRole]
    rw [if_neg (not_ne_iff.mpr rfl), if_pos hAny]
  · intro op s2 u r0 h hr
    exact roleOf_runOp_preserved op s s2 h u r0 hr

/-- C8 witness: in `exC8S` user 2 already holds a role; user 1 cannot
write user 2's role, user 2 cannot write a second role, and a register
step by user 3 leaves user 2's role intact. -/
theorem C8_witness :
    setRole 1 2 "employer" exC8S = Except.error DbError.Forbidden ∧
    setRole 2 2 "job_seeker" exC8S = Except.error DbError.Conflict ∧
    roleOf exC8S2 2 = some "employer" :=
  ⟨(C8_role_write_once exC8S).1 1 2 "employer" (by decide),
   (C8_role_write_once exC8S).2.1 2 "employer" "job_seeker" rfl,
   (C8_role_write_once exC8S).2.2 (Op.opSetRole 3 3 "job_seeker") exC8S2 2
     "employer" rfl rfl⟩

/-- C9: `updateStatus` is idempotent in observable effect: applying the
same status write twice leaves exactly the state of applying it once -
the overwrite is absorbing on success, and a rejected update leaves the
state unchanged both times. -/
theorem C9_updateStatus_idempotent (actor applicationId : Nat) (status : String)
    (s : DBState) :
    execUpdateStatus actor applicationId status
        (execUpdateStatus actor applicationId status s) =
      execUpdateStatus actor applicationId status s := by
  rcases h : updateApplicationStatus actor applicationId status s with e | s2
  · have hs : execUpdateStatus actor applicationId status s = s := by
      simp only [execUpdateStatus, h]
    rw [hs]
    exact hs
  · rcases updateApplicationStatus_ok actor applicationId status s s2 h with
      ⟨a, hf, ho, hs2⟩
    have hexec1 : execUpdateStatus actor applicationId status s = s2 := by
      simp only [execUpdateStatus, h]
    rw [hexec1]
    have hf2 : s2.job_applications.find? (fun r => r.id == applicationId) =
        some { a with status := status } := by
      rw [hs2]
      exact setStatusById_find? applicationId status s.job_applications a hf
    have ho2 : is_job_owner s2 actor
        ({ a with status := status } : JobApplicationRow).job_id = true := by
      rw [hs2]
      exact ho
    have hupd2 : updateApplicationStatus actor applicationId status s2 =
        Except.ok s2 := by
      simp only [updateApplicationStatus, hf2]
      rw [if_pos ho2]
      have hW : setStatusById applicationId status s2.job_applications =
          s2.job_applications := by
        rw [hs2]
        exact setStatusById_idem applicationId status s.job_applications
      rw [hW]
    simp only [execUpdateStatus, hupd2]

/-- C10: in the send-to-boss flow, when the filtered list contains no
shortlisted applicant the whole filtered list is forwarded to the boss;
when at least one applicant is shortlisted only the shortlisted subset
is forwarded. -/
theorem C10_send_to_boss_fallback (bossEmail jobTitle : String)
    (filteredApplicants : List Applicant) (hEmail : trimString bossEmail ≠ "") :
    (shortlistedApplicants filteredApplicants = [] → filteredApplicants ≠ [] →
      handleSendToBoss bossEmail (some jobTitle) filteredApplicants =
        SendToBossClientResult.invoked (trimString bossEmail) filteredApplicants) ∧
    (shortlistedApplicants filteredApplicants ≠ [] →
      handleSendToBoss bossEmail (some jobTitle) filteredApplicants =
        SendToBossClientResult.invoked (trimString bossEmail)
          (shortlistedApplicants filteredApplicants)) := by
  constructor
  · intro hsl hfa
    have hts : applicantsToSend filteredApplicants = filteredApplicants := by
      simp [applicantsToSend, hsl]
    have hne : applicantsToSend filteredApplicants ≠ [] := by
      rw [hts]
      exact hfa
    simp only [handleSendToBoss]
    rw [if_neg hEmail, if_neg hne, hts]
  · intro hsl
    have hts : applicantsToSend filteredApplicants =
        shortlistedApplicants filteredApplicants := by
      simp only [applicantsToSend]
      rw [if_pos (List.length_pos.mpr hsl)]
    have hne : applicantsToSend filteredApplicants ≠ [] := by
      rw [hts]
      exact hsl
    simp only [handleSendToBoss]
    rw [if_neg hEmail, if_neg hne, hts]

/-- C10 witness: with no shortlisted applicant the whole filtered list
`exC10A` is forwarded; with one shortlisted applicant in `exC10B` only
that applicant is forwarded. -/
theorem C10_witness :
    handleSendToBoss "boss@example.com" (some "Data Analyst") exC10A =
      SendToBossClientResult.invoked "boss@example.com" exC10A ∧
    handleSendToBoss "boss@example.com" (some "Data Analyst") exC10B =
      SendToBossClientResult.invoked "boss@example.com"
        [mkApplicant 2 (some "shortlisted")] :=
  ⟨(C10_send_to_boss_fallback "boss@example.com" "Data Analyst" exC10A
      (by decide)).1 (by decide) (by decide),
   (C10_send_to_boss_fallback "boss@example.com" "Data Analyst" exC10B
      (by decide)).2 (by decide)⟩

end ConnectHire
